import Mathlib

/-
Verification of the workflow concurrency controller
(internal/services/controllers/workflows) against its specification.

The Go source is shallowly embedded: each controller function becomes a pure
Lean function over explicit inputs standing for the store's responses and the
message bus.  Store writes and bus sends are collected as explicit output
lists; fallible collaborators (store operations, bus sends) are modelled as
environment fields carrying their results.  Timestamps are natural numbers
(seconds); the Go zero time is encoded as 0.
-/

namespace Hatchet

/-- Go errors are modelled as their message strings. -/
abbrev GoErr := String

/-- Status enum shared by group-key runs and step runs (db.StepRunStatus). -/
inductive StepRunStatus where
  | pending
  | pendingAssignment
  | assigned
  | running
  | succeeded
  | failed
  | cancelled
deriving DecidableEq, Repr

/-- Status enum for workflow runs (db.WorkflowRunStatus). -/
inductive WorkflowRunStatus where
  | queued
  | running
  | succeeded
  | failed
  | cancelled
deriving DecidableEq, Repr

/-- db.ConcurrencyLimitStrategy. -/
inductive ConcurrencyLimitStrategy where
  | cancelInProgress
  | groupRoundRobin
deriving DecidableEq, Repr

/-- The concurrency settings attached to a workflow version. -/
structure ConcurrencyPolicy where
  workflowVersionId : String
  maxRuns : Nat
  limitStrategy : ConcurrencyLimitStrategy
deriving DecidableEq, Repr

/-- A workflow version together with its optional concurrency policy.
In the Go source the policy is an optional relation returned as a nullable
pointer by workflowVersion.Concurrency(). -/
structure WorkflowVersion where
  id : String
  concurrency : Option ConcurrencyPolicy
deriving DecidableEq, Repr

/-- A job run belonging to a workflow run; only its identity matters here. -/
structure JobRun where
  id : String
deriving DecidableEq, Repr

/-- A step run belonging to a workflow run. -/
structure StepRun where
  id : String
  status : StepRunStatus
deriving DecidableEq, Repr

/-- A workflow run as returned by the store, with its related job runs and
step runs already fetched. -/
structure WorkflowRun where
  id : String
  createdAt : Nat
  status : WorkflowRunStatus
  jobRuns : List JobRun
  stepRuns : List StepRun
deriving DecidableEq, Repr

/-- A group-key run row (dbsqlc.GetGroupKeyRunForEngineRow). -/
structure GroupKeyRun where
  id : String
  tenantId : String
  workflowRunId : String
  status : StepRunStatus
  startedAt : Option Nat
  finishedAt : Option Nat
  output : Option String
  errorMsg : Option String
  cancelledAt : Option Nat
  cancelledReason : Option String
  requeueAfter : Nat
  scheduleTimeoutAt : Nat
  tickerId : String
deriving DecidableEq, Repr

/-- The set-if-present patch passed to UpdateGetGroupKeyRun
(repository.UpdateGetGroupKeyRunOpts); an absent field leaves the column
unchanged. -/
structure GroupKeyRunPatch where
  status : Option StepRunStatus
  startedAt : Option Nat
  finishedAt : Option Nat
  output : Option String
  errorMsg : Option String
  cancelledAt : Option Nat
  cancelledReason : Option String
  requeueAfter : Option Nat
deriving DecidableEq, Repr

/-- The patch with every field absent. -/
def emptyPatch : GroupKeyRunPatch :=
  ⟨none, none, none, none, none, none, none, none⟩

/-- Apply one optional field of a patch. -/
def applyField {α : Type} (cur : α) : Option α → α
  | none => cur
  | some v => v

/-- Apply a set-if-present patch to a group-key run row. -/
def applyPatch (g : GroupKeyRun) (p : GroupKeyRunPatch) : GroupKeyRun :=
  { g with
    status := applyField g.status p.status
    startedAt := applyField g.startedAt p.startedAt
    finishedAt := applyField g.finishedAt p.finishedAt
    output := applyField g.output p.output
    errorMsg := applyField g.errorMsg p.errorMsg
    cancelledAt := applyField g.cancelledAt p.cancelledAt
    cancelledReason := applyField g.cancelledReason p.cancelledReason
    requeueAfter := applyField g.requeueAfter p.requeueAfter }

/-- The queues the controller publishes to (msgqueue queue identities). -/
inductive QueueId where
  | jobProcessing
  | workflowProcessing
  | fromDispatcher (dispatcherId : String)
  | fromTicker (tickerId : String)
deriving DecidableEq, Repr

/-- The messages the controller produces, with the payload fields the source
serializes into them. -/
inductive Msg where
  | jobRunQueued (jobRunId : String)
  | groupKeyActionAssigned (tenantId workflowRunId workerId dispatcherId : String)
  | scheduleGroupKeyRunTimeout (tenantId workflowRunId getGroupKeyRunId : String)
  | cancelGroupKeyRunTimeout (tenantId getGroupKeyRunId : String)
  | stepRunCancelled (tenantId stepRunId cancelledReason : String)
deriving DecidableEq, Repr

/-- One AddMessage call: the destination queue and the message. -/
abbrev Emit := QueueId × Msg

/-- The message bus: for each attempted send, the error AddMessage returns
(none means the send succeeded). -/
abbrev Bus := Emit → Option GoErr

/-- The store writes the controller can issue.  The controller source never
updates a workflow run; the constructor exists so that frame properties about
workflow runs are expressible. -/
inductive StoreWrite where
  | updateGroupKeyRun (tenantId gkrId : String) (patch : GroupKeyRunPatch)
  | updateWorkflowRun (tenantId wrId : String) (status : WorkflowRunStatus)
deriving DecidableEq, Repr

/-- A snapshot of the store rows the controller touches. -/
structure Store where
  workflowRuns : List (String × WorkflowRun)
  groupKeyRuns : List (String × GroupKeyRun)
deriving DecidableEq, Repr

/-- Apply one store write to a store snapshot. -/
def applyWrite (s : Store) : StoreWrite → Store
  | .updateGroupKeyRun _ gid p =>
      { s with groupKeyRuns :=
          s.groupKeyRuns.map (fun kv => if kv.1 = gid then (kv.1, applyPatch kv.2 p) else kv) }
  | .updateWorkflowRun _ wid st =>
      { s with workflowRuns :=
          s.workflowRuns.map (fun kv => if kv.1 = wid then (kv.1, { kv.2 with status := st }) else kv) }

/-- Apply a list of store writes in order. -/
def applyWrites (s : Store) (ws : List StoreWrite) : Store :=
  ws.foldl applyWrite s

/-- The message published for one released job run (JobRunQueuedToTask sent on
JOB_PROCESSING_QUEUE). -/
def jobRunQueuedEmit (jr : JobRun) : Emit :=
  (QueueId.jobProcessing, Msg.jobRunQueued jr.id)

/-- The loop body of queueWorkflowRunJobs.  In the Go source the loop declares
a fresh err with a short variable declaration, so the wrapped multierror is
assigned to the loop-local variable and the enclosing err (threaded here as
outerErr) is never written. -/
def queueWorkflowRunJobsLoop (bus : Bus) (outerErr : Option GoErr) :
    List JobRun → List Emit × Option GoErr
  | [] => ([], outerErr)
  | jr :: rest =>
    let e := jobRunQueuedEmit jr
    let innerErr := bus e
    let _wrapped : Option GoErr :=
      innerErr.map (fun m => "could not add job run to task queue: " ++ m)
    let r := queueWorkflowRunJobsLoop bus outerErr rest
    (e :: r.1, r.2)

/-- queueWorkflowRunJobs: publish one message per job run of the workflow run
on JOB_PROCESSING_QUEUE and return the (never reassigned) outer error. -/
def queueWorkflowRunJobs (bus : Bus) (wr : WorkflowRun) : List Emit × Option GoErr :=
  queueWorkflowRunJobsLoop bus none wr.jobRuns

/-- The step-run-cancelled message built by getStepRunNotifyCancelTask. -/
def stepRunCancelledEmit (tenantId : String) (sr : StepRun) : Emit :=
  (QueueId.jobProcessing, Msg.stepRunCancelled tenantId sr.id "CANCELLED_BY_CONCURRENCY_LIMIT")

/-- First error among a list of bus send results, as errgroup.Wait reports
one of the goroutine errors. -/
def firstErr (bus : Bus) : List Emit → Option GoErr
  | [] => none
  | e :: rest =>
    match bus e with
    | some m => some m
    | none => firstErr bus rest

/-- cancelWorkflowRun: list the run's RUNNING step runs and publish one
step-run-cancelled message per such step run; the function issues no store
write. -/
def cancelWorkflowRun (bus : Bus) (tenantId : String) (wr : WorkflowRun) :
    List Emit × List StoreWrite × Option GoErr :=
  let runningSteps := wr.stepRuns.filter (fun sr => decide (sr.status = StepRunStatus.running))
  let emits := runningSteps.map (stepRunCancelledEmit tenantId)
  (emits, [], firstErr bus emits)

/- Helper lemmas about the job-run loop, shared by several proofs below. -/

theorem queueWorkflowRunJobsLoop_spec (bus : Bus) (outerErr : Option GoErr) :
    ∀ jrs : List JobRun,
      queueWorkflowRunJobsLoop bus outerErr jrs = (jrs.map jobRunQueuedEmit, outerErr) := by
  intro jrs
  induction jrs with
  | nil => rfl
  | cons jr rest ih =>
      simp [queueWorkflowRunJobsLoop, ih]

theorem queueWorkflowRunJobs_eq (bus : Bus) (wr : WorkflowRun) :
    queueWorkflowRunJobs bus wr = (wr.jobRuns.map jobRunQueuedEmit, none) := by
  simp [queueWorkflowRunJobs, queueWorkflowRunJobsLoop_spec]

theorem firstErr_of_ok (bus : Bus) (hbus : ∀ e, bus e = none) :
    ∀ l : List Emit, firstErr bus l = none := by
  intro l
  induction l with
  | nil => rfl
  | cons e rest ih => simp [firstErr, hbus, ih]

/-- Result of AssignGetGroupKeyRunToWorker: either both ids on success, the
dedicated ErrNoWorkerAvailable, or any other store error. -/
inductive AssignWorkerResult where
  | assigned (workerId dispatcherId : String)
  | noWorkerAvailable
  | storeError (e : GoErr)
deriving DecidableEq, Repr

/-- Result of AssignGetGroupKeyRunToTicker: the ticker id or a store error. -/
inductive AssignTickerResult where
  | ok (tickerId : String)
  | storeError (e : GoErr)
deriving DecidableEq, Repr

/-- The store responses consumed by one call to scheduleGetGroupAction:
the result of the initial status update, of the worker assignment and of the
ticker assignment. -/
structure ScheduleEnv where
  updateStatusErr : Option GoErr
  assignWorker : AssignWorkerResult
  assignTicker : AssignTickerResult
deriving DecidableEq, Repr

/-- The patch written by the first step of scheduleGetGroupAction. -/
def pendingAssignmentPatch : GroupKeyRunPatch :=
  { emptyPatch with status := some StepRunStatus.pendingAssignment }

/-- The group-key-action-assigned message built by getGroupActionTask,
addressed to the queue derived from the dispatcher id. -/
def dispatchEmit (tenantId workflowRunId workerId dispatcherId : String) : Emit :=
  (QueueId.fromDispatcher dispatcherId,
   Msg.groupKeyActionAssigned tenantId workflowRunId workerId dispatcherId)

/-- The schedule-get-group-key-run-timeout message built by
scheduleGetGroupKeyRunTimeoutTask, addressed to the queue derived from the
ticker id.  DefaultStepRunTimeout is a fixed valid duration string, so
building the task never fails. -/
def timeoutEmit (tenantId workflowRunId getGroupKeyRunId tickerId : String) : Emit :=
  (QueueId.fromTicker tickerId,
   Msg.scheduleGroupKeyRunTimeout tenantId workflowRunId getGroupKeyRunId)

/-- scheduleGetGroupAction: write status PENDING_ASSIGNMENT, assign a worker
(treating ErrNoWorkerAvailable as success with no further action), assign a
ticker, then publish the dispatcher message followed by the ticker timeout
message, in the order of the source. -/
def scheduleGetGroupAction (env : ScheduleEnv) (bus : Bus)
    (tenantId getGroupKeyRunId workflowRunId : String) :
    List Emit × List StoreWrite × Except GoErr Unit :=
  let w0 := StoreWrite.updateGroupKeyRun tenantId getGroupKeyRunId pendingAssignmentPatch
  match env.updateStatusErr with
  | some e => ([], [w0], Except.error ("could not update get group key run: " ++ e))
  | none =>
    match env.assignWorker with
    | AssignWorkerResult.noWorkerAvailable => ([], [w0], Except.ok ())
    | AssignWorkerResult.storeError e =>
        ([], [w0], Except.error ("could not assign get group key run to worker: " ++ e))
    | AssignWorkerResult.assigned workerId dispatcherId =>
      match env.assignTicker with
      | AssignTickerResult.storeError e =>
          ([], [w0], Except.error ("could not assign get group key run to ticker: " ++ e))
      | AssignTickerResult.ok tickerId =>
        let d := dispatchEmit tenantId workflowRunId workerId dispatcherId
        let t := timeoutEmit tenantId workflowRunId getGroupKeyRunId tickerId
        match bus d with
        | some e =>
            ([d], [w0], Except.error ("could not add job assigned task to task queue: " ++ e))
        | none =>
          match bus t with
          | some e =>
              ([d, t], [w0],
               Except.error ("could not add schedule get group key run timeout task to task queue: " ++ e))
          | none => ([d, t], [w0], Except.ok ())

/-- The patch written when the reconciler cancels a run that exceeded its
scheduling timeout. -/
def schedulingTimedOutPatch (now : Nat) : GroupKeyRunPatch :=
  { emptyPatch with
      status := some StepRunStatus.cancelled
      cancelledAt := some now
      cancelledReason := some "SCHEDULING_TIMED_OUT" }

/-- The patch bumping requeue_after by five seconds. -/
def requeueAfterPatch (now : Nat) : GroupKeyRunPatch :=
  { emptyPatch with requeueAfter := some (now + 5) }

/-- One iteration of the requeue reconciler over a single group-key run
returned by ListGetGroupKeyRunsToRequeue.  The zero Go time is encoded as
scheduleTimeoutAt = 0.  Store errors from the two updates are surfaced
unchanged by the source and are not modelled separately here. -/
def requeueGroupKeyRunItem (env : ScheduleEnv) (bus : Bus) (now : Nat)
    (tenantId : String) (gkr : GroupKeyRun) :
    List Emit × List StoreWrite × Except GoErr Unit :=
  let scheduleTimeoutAt := gkr.scheduleTimeoutAt
  if scheduleTimeoutAt ≠ 0 ∧ scheduleTimeoutAt < now then
    ([], [StoreWrite.updateGroupKeyRun tenantId gkr.id (schedulingTimedOutPatch now)],
     Except.ok ())
  else
    let r := scheduleGetGroupAction env bus tenantId gkr.id gkr.workflowRunId
    (r.1, StoreWrite.updateGroupKeyRun tenantId gkr.id (requeueAfterPatch now) :: r.2.1, r.2.2)

/-- First error among a list of already-computed results, as errgroup.Wait
reports one of the goroutine errors. -/
def firstSomeErr : List (Option GoErr) → Option GoErr
  | [] => none
  | some e :: _ => some e
  | none :: rest => firstSomeErr rest

/-- The cancellation loop of queueByCancelInProgress: iterate over the
running rows by index and break as soon as the index reaches the number of
queued rows; each remaining row is cancelled via cancelWorkflowRun. -/
def cancelInProgressCancelLoop (bus : Bus) (tenantId : String) (queuedLen : Nat) :
    Nat → List WorkflowRun → List Emit × Option GoErr
  | _, [] => ([], none)
  | i, wr :: rest =>
    if queuedLen ≤ i then ([], none)
    else
      let c := cancelWorkflowRun bus tenantId wr
      let r := cancelInProgressCancelLoop bus tenantId queuedLen (i + 1) rest
      (c.1 ++ r.1, firstSomeErr [c.2.2, r.2])

/-- The release loop of queueByCancelInProgress: iterate over the queued rows
by index and break when the index reaches maxToQueue; each remaining row is
fetched and its job runs are enqueued via queueWorkflowRunJobs. -/
def cancelInProgressQueueLoop (bus : Bus) (maxToQueue : Nat) :
    Nat → List WorkflowRun → List Emit × Option GoErr
  | _, [] => ([], none)
  | i, wr :: rest =>
    if maxToQueue ≤ i then ([], none)
    else
      let q := queueWorkflowRunJobs bus wr
      let r := cancelInProgressQueueLoop bus maxToQueue (i + 1) rest
      (q.1 ++ r.1, firstSomeErr [q.2, r.2])

/-- queueByCancelInProgress: given the store's responses to the two listings
(running runs and queued runs for the group key, both ordered oldest-first by
the query, the queued listing limited to max_runs by the query), cancel
running rows while queued rows remain and then release up to
min maxRuns (length of the queued listing) queued rows.  The fetch of each
released run is modelled as returning the listed row. -/
def queueByCancelInProgress (bus : Bus) (tenantId groupKey : String)
    (wv : WorkflowVersion) (runningRows queuedRows : List WorkflowRun) :
    List Emit × List StoreWrite × Except GoErr Unit :=
  match wv.concurrency with
  | none => ([], [], Except.ok ())
  | some c =>
    let maxToQueue := min c.maxRuns queuedRows.length
    let cancelRes := cancelInProgressCancelLoop bus tenantId queuedRows.length 0 runningRows
    match cancelRes.2 with
    | some e => (cancelRes.1, [], Except.error ("could not cancel workflow runs: " ++ e))
    | none =>
      let queueRes := cancelInProgressQueueLoop bus maxToQueue 0 queuedRows
      match queueRes.2 with
      | some e =>
          (cancelRes.1 ++ queueRes.1, [], Except.error ("could not queue workflow runs: " ++ e))
      | none => (cancelRes.1 ++ queueRes.1, [], Except.ok ())

/-- queueByGroupRoundRobin: given the rows returned by the store primitive
PopWorkflowRunsRoundRobin, fetch each popped run and enqueue its job runs;
the goroutine errors are joined as errgroup.Wait does. -/
def queueByGroupRoundRobin (bus : Bus) (tenantId : String) (wv : WorkflowVersion)
    (popped : List WorkflowRun) : List Emit × List StoreWrite × Except GoErr Unit :=
  match wv.concurrency with
  | none => ([], [], Except.ok ())
  | some _ =>
    let results := popped.map (fun wr => queueWorkflowRunJobs bus wr)
    let emits := (results.map Prod.fst).flatten
    match firstSomeErr (results.map Prod.snd) with
    | some e => (emits, [], Except.error ("could not queue workflow runs: " ++ e))
    | none => (emits, [], Except.ok ())

/-- handleWorkflowRunFinished after decoding and after fetching the finished
run: with a concurrency policy the handler switches on the limit strategy,
invoking the round-robin release for GROUP_ROUND_ROBIN and returning nil in
the default case (which covers CANCEL_IN_PROGRESS); without a policy it
returns nil. -/
def handleWorkflowRunFinished (bus : Bus) (tenantId : String)
    (wv : WorkflowVersion) (popped : List WorkflowRun) :
    List Emit × List StoreWrite × Except GoErr Unit :=
  match wv.concurrency with
  | some c =>
    match c.limitStrategy with
    | ConcurrencyLimitStrategy.groupRoundRobin =>
        queueByGroupRoundRobin bus tenantId wv popped
    | ConcurrencyLimitStrategy.cancelInProgress => ([], [], Except.ok ())
  | none => ([], [], Except.ok ())

/-- Outcome of a Go call that can also crash: ok, a returned error, or a
runtime panic. -/
inductive GoOutcome (α : Type) where
  | ok (a : α)
  | error (e : GoErr)
  | panicked (msg : String)
deriving DecidableEq, Repr

/-- The admission goroutine of handleGroupKeyRunFinished.  The source reads
the policy with a discarded ok flag and immediately switches on
concurrency.LimitStrategy, so when the workflow version has no
ConcurrencyPolicy the nil policy pointer is dereferenced and the goroutine
panics instead of returning. -/
def finishedAdmissionBranch (bus : Bus) (tenantId groupKey : String)
    (wv : WorkflowVersion) (runningRows queuedRows popped : List WorkflowRun) :
    GoOutcome (List Emit × List StoreWrite) :=
  match wv.concurrency with
  | none => GoOutcome.panicked "runtime error: invalid memory address or nil pointer dereference"
  | some c =>
    match c.limitStrategy with
    | ConcurrencyLimitStrategy.cancelInProgress =>
      let r := queueByCancelInProgress bus tenantId groupKey wv runningRows queuedRows
      match r.2.2 with
      | Except.ok _ => GoOutcome.ok (r.1, r.2.1)
      | Except.error e => GoOutcome.error e
    | ConcurrencyLimitStrategy.groupRoundRobin =>
      let r := queueByGroupRoundRobin bus tenantId wv popped
      match r.2.2 with
      | Except.ok _ => GoOutcome.ok (r.1, r.2.1)
      | Except.error e => GoOutcome.error e

/-- Whether a group-key run status is terminal. -/
def isTerminalStatus : StepRunStatus → Bool
  | StepRunStatus.succeeded => true
  | StepRunStatus.failed => true
  | StepRunStatus.cancelled => true
  | _ => false

/-- Modelled from the spec: the store operation UpdateGetGroupKeyRun lives in
the generated repository layer, which is not part of the provided sources;
per the spec the terminal-status update is a no-op when the run is already in
a terminal state, and otherwise applies the set-if-present patch. -/
def updateGetGroupKeyRunStore (gkr : GroupKeyRun) (p : GroupKeyRunPatch) : GroupKeyRun :=
  if isTerminalStatus gkr.status then gkr else applyPatch gkr p

/-- The patch written by handleGroupKeyRunFinished: finished_at, status
SUCCEEDED and the resolved group key as output. -/
def finishedPatch (finishedAt : Nat) (groupKey : String) : GroupKeyRunPatch :=
  { emptyPatch with
      finishedAt := some finishedAt
      status := some StepRunStatus.succeeded
      output := some groupKey }

/-- The patch written by handleGroupKeyRunFailed: finished_at set to the
failure time, the error message and status FAILED. -/
def failedPatch (failedAt : Nat) (errMsg : String) : GroupKeyRunPatch :=
  { emptyPatch with
      finishedAt := some failedAt
      errorMsg := some errMsg
      status := some StepRunStatus.failed }

/-- Effect of one delivery of get-group-key-run-finished on the stored
group-key run row. -/
def deliverGroupKeyRunFinished (finishedAt : Nat) (groupKey : String)
    (gkr : GroupKeyRun) : GroupKeyRun :=
  updateGetGroupKeyRunStore gkr (finishedPatch finishedAt groupKey)

/-- Effect of one delivery of get-group-key-run-failed on the stored
group-key run row. -/
def deliverGroupKeyRunFailed (failedAt : Nat) (errMsg : String)
    (gkr : GroupKeyRun) : GroupKeyRun :=
  updateGetGroupKeyRunStore gkr (failedPatch failedAt errMsg)

/-- The four steps the specification assigns to the shutdown continuation. -/
inductive ShutdownStep where
  | cancelRootContext
  | unsubscribeQueue
  | waitForHandlers
  | stopScheduler
deriving DecidableEq, Repr

/-- Results of the two fallible shutdown collaborators: the queue cleanup
returned by Subscribe and the scheduler Shutdown. -/
structure CleanupEnv where
  cleanupQueueErr : Option GoErr
  schedulerShutdownErr : Option GoErr
deriving DecidableEq, Repr

/-- The cleanup continuation returned by Start: cancel the root context, run
the queue cleanup and return its wrapped error immediately when it fails;
otherwise wait for in-flight handlers and stop the scheduler, reporting a
scheduler error after all four steps ran.  The first component records which
steps executed, in order. -/
def cleanup (env : CleanupEnv) : List ShutdownStep × Option GoErr :=
  match env.cleanupQueueErr with
  | some e =>
      ([ShutdownStep.cancelRootContext, ShutdownStep.unsubscribeQueue],
       some ("could not cleanup queue: " ++ e))
  | none =>
    match env.schedulerShutdownErr with
    | some e =>
        ([ShutdownStep.cancelRootContext, ShutdownStep.unsubscribeQueue,
          ShutdownStep.waitForHandlers, ShutdownStep.stopScheduler],
         some ("could not shutdown scheduler: " ++ e))
    | none =>
        ([ShutdownStep.cancelRootContext, ShutdownStep.unsubscribeQueue,
          ShutdownStep.waitForHandlers, ShutdownStep.stopScheduler],
         none)

/-- Whether the version carries a GROUP_ROUND_ROBIN concurrency policy. -/
def hasRoundRobinPolicy (wv : WorkflowVersion) : Bool :=
  match wv.concurrency with
  | some c =>
    match c.limitStrategy with
    | ConcurrencyLimitStrategy.groupRoundRobin => true
    | _ => false
  | none => false

/- Shared helper lemmas. -/

theorem cancelWorkflowRun_err_of_ok (bus : Bus) (hbus : ∀ e, bus e = none)
    (tenantId : String) (wr : WorkflowRun) :
    (cancelWorkflowRun bus tenantId wr).2.2 = none := by
  simp [cancelWorkflowRun, firstErr_of_ok bus hbus]

theorem firstSomeErr_map_none {α : Type} (l : List α) :
    firstSomeErr (l.map (fun _ => (none : Option GoErr))) = none := by
  induction l with
  | nil => rfl
  | cons a rest ih => simpa [firstSomeErr] using ih

theorem firstSomeErr_replicate_none (n : Nat) :
    firstSomeErr (List.replicate n none) = none := by
  induction n with
  | zero => rfl
  | succ k ih => simpa [List.replicate, firstSomeErr] using ih

theorem cancelInProgressCancelLoop_eq (bus : Bus) (tenantId : String)
    (queuedLen : Nat) (hbus : ∀ e, bus e = none) :
    ∀ (R : List WorkflowRun) (i : Nat),
      cancelInProgressCancelLoop bus tenantId queuedLen i R =
        (((R.take (queuedLen - i)).map
            (fun wr => (cancelWorkflowRun bus tenantId wr).1)).flatten, none) := by
  intro R
  induction R with
  | nil => intro i; simp [cancelInProgressCancelLoop]
  | cons wr rest ih =>
    intro i
    by_cases h : queuedLen ≤ i
    · simp [cancelInProgressCancelLoop, h, Nat.sub_eq_zero_of_le h]
    · have hs : queuedLen - i = (queuedLen - (i + 1)) + 1 := by omega
      simp [cancelInProgressCancelLoop, h, ih, hs,
            cancelWorkflowRun_err_of_ok bus hbus, firstSomeErr]

theorem cancelInProgressQueueLoop_eq (bus : Bus) (maxToQueue : Nat) :
    ∀ (Q : List WorkflowRun) (i : Nat),
      cancelInProgressQueueLoop bus maxToQueue i Q =
        (((Q.take (maxToQueue - i)).map
            (fun wr => wr.jobRuns.map jobRunQueuedEmit)).flatten, none) := by
  intro Q
  induction Q with
  | nil => intro i; simp [cancelInProgressQueueLoop]
  | cons wr rest ih =>
    intro i
    by_cases h : maxToQueue ≤ i
    · simp [cancelInProgressQueueLoop, h, Nat.sub_eq_zero_of_le h]
    · have hs : maxToQueue - i = (maxToQueue - (i + 1)) + 1 := by omega
      simp [cancelInProgressQueueLoop, h, ih, hs, queueWorkflowRunJobs_eq, firstSomeErr]

/- Claim theorems. -/

/-- C1: under CANCEL_IN_PROGRESS, with R the store response for RUNNING runs
of the group key ordered oldest-first and Q the response for QUEUED runs
ordered oldest-first and limited to max_runs, the engine cancels exactly
min (length R) (length Q) runs, namely the oldest entries of R (the prefix of
R), and releases exactly min maxRuns (length Q) runs, namely the oldest
entries of Q, by enqueuing each released run's job runs on
JOB_PROCESSING_QUEUE. -/
theorem queueByCancelInProgress_cancels_and_releases (bus : Bus)
    (tenantId groupKey : String) (wv : WorkflowVersion) (c : ConcurrencyPolicy)
    (R Q : List WorkflowRun) (hc : wv.concurrency = some c)
    (hbus : ∀ e, bus e = none) :
    queueByCancelInProgress bus tenantId groupKey wv R Q =
      (((R.take Q.length).map (fun wr => (cancelWorkflowRun bus tenantId wr).1)).flatten
         ++ ((Q.take (min c.maxRuns Q.length)).map
               (fun wr => wr.jobRuns.map jobRunQueuedEmit)).flatten,
       [], Except.ok ())
    ∧ (R.take Q.length).length = min R.length Q.length
    ∧ (Q.take (min c.maxRuns Q.length)).length = min c.maxRuns Q.length := by
  refine ⟨?_, ?_, ?_⟩
  · simp [queueByCancelInProgress, hc,
          cancelInProgressCancelLoop_eq bus tenantId Q.length hbus,
          cancelInProgressQueueLoop_eq]
  · simp [List.length_take, Nat.min_comm]
  · simp [List.length_take]

/-- The bus on which every send succeeds. -/
def busOk : Bus := fun _ => none

/-- The concurrency policy used by the C1 witness: max_runs 1,
CANCEL_IN_PROGRESS. -/
def cC1 : ConcurrencyPolicy := ⟨"wfv-1", 1, ConcurrencyLimitStrategy.cancelInProgress⟩

/-- The workflow version used by the C1 witness. -/
def wvC1 : WorkflowVersion := ⟨"wfv-1", some cC1⟩

/-- An older running run with one running step run. -/
def wrR1 : WorkflowRun :=
  ⟨"run-r1", 1, WorkflowRunStatus.running, [⟨"job-r1"⟩],
   [⟨"step-r1", StepRunStatus.running⟩]⟩

/-- A newer running run. -/
def wrR2 : WorkflowRun :=
  ⟨"run-r2", 2, WorkflowRunStatus.running, [⟨"job-r2"⟩],
   [⟨"step-r2", StepRunStatus.running⟩]⟩

/-- A queued run with one job run. -/
def wrQ1 : WorkflowRun := ⟨"run-q1", 3, WorkflowRunStatus.queued, [⟨"job-q1"⟩], []⟩

/-- C1 witness: with two running runs and one queued run under max_runs 1,
exactly the oldest running run is cancelled (one step-run-cancelled message)
and exactly the queued run is released (one job message). -/
theorem queueByCancelInProgress_cancels_and_releases_witness :
    queueByCancelInProgress busOk "tenant-1" "group-a" wvC1 [wrR1, wrR2] [wrQ1] =
      ([stepRunCancelledEmit "tenant-1" ⟨"step-r1", StepRunStatus.running⟩,
        jobRunQueuedEmit ⟨"job-q1"⟩], [], Except.ok ()) := by
  have h := (queueByCancelInProgress_cancels_and_releases busOk "tenant-1" "group-a"
      wvC1 cC1 [wrR1, wrR2] [wrQ1] rfl (fun _ => rfl)).1
  rw [h]
  rfl

/-- C2: for every group-key run scanned by the requeue reconciler, when
schedule_timeout_at is non-zero and before now the run is cancelled with
cancelled_at now and reason SCHEDULING_TIMED_OUT and Schedule is not invoked
(no emits, no other writes); otherwise requeue_after is set to now plus five
seconds and scheduleGetGroupAction is invoked, its emits, writes and result
passed through. -/
theorem requeueGroupKeyRunItem_timeout_or_schedule (env : ScheduleEnv) (bus : Bus)
    (now : Nat) (tenantId : String) (gkr : GroupKeyRun) :
    requeueGroupKeyRunItem env bus now tenantId gkr =
      if gkr.scheduleTimeoutAt ≠ 0 ∧ gkr.scheduleTimeoutAt < now then
        ([], [StoreWrite.updateGroupKeyRun tenantId gkr.id
                ⟨some StepRunStatus.cancelled, none, none, none, none, some now,
                 some "SCHEDULING_TIMED_OUT", none⟩],
         Except.ok ())
      else
        ((scheduleGetGroupAction env bus tenantId gkr.id gkr.workflowRunId).1,
         StoreWrite.updateGroupKeyRun tenantId gkr.id
             ⟨none, none, none, none, none, none, none, some (now + 5)⟩
           :: (scheduleGetGroupAction env bus tenantId gkr.id gkr.workflowRunId).2.1,
         (scheduleGetGroupAction env bus tenantId gkr.id gkr.workflowRunId).2.2) := by
  by_cases h : gkr.scheduleTimeoutAt ≠ 0 ∧ gkr.scheduleTimeoutAt < now
  · simp [requeueGroupKeyRunItem, h, schedulingTimedOutPatch, emptyPatch]
  · simp [requeueGroupKeyRunItem, h, requeueAfterPatch, emptyPatch]

/-- The schedule environment with a worker and ticker available, used by the
C3 counterexample and witness. -/
def envC3 : ScheduleEnv :=
  ⟨none, AssignWorkerResult.assigned "worker-1" "dispatcher-1",
   AssignTickerResult.ok "ticker-1"⟩

/-- C3 counterexample: on a fully successful schedule the source publishes
the dispatcher message before the ticker timeout message, so the emitted
sequence is not the timeout-first order the claim states. -/
theorem scheduleGetGroupAction_timeout_first_counterexample :
    (scheduleGetGroupAction envC3 busOk "tenant-1" "gkr-1" "wfr-1").1 =
      [dispatchEmit "tenant-1" "wfr-1" "worker-1" "dispatcher-1",
       timeoutEmit "tenant-1" "wfr-1" "gkr-1" "ticker-1"]
    ∧ [dispatchEmit "tenant-1" "wfr-1" "worker-1" "dispatcher-1",
       timeoutEmit "tenant-1" "wfr-1" "gkr-1" "ticker-1"] ≠
      [timeoutEmit "tenant-1" "wfr-1" "gkr-1" "ticker-1",
       dispatchEmit "tenant-1" "wfr-1" "worker-1" "dispatcher-1"] := by
  exact ⟨rfl, by decide⟩

/-- C3 amended: on a group-key run for which Schedule succeeds with a worker
assigned, the steps run in the order status write, worker assignment, ticker
assignment, then the group-key-action-assigned dispatch message on the queue
derived from the dispatcher id, and only after that the
schedule-get-group-key-run-timeout message on the queue derived from the
ticker id. -/
theorem scheduleGetGroupAction_send_order (env : ScheduleEnv) (bus : Bus)
    (tenantId gkrId wrId workerId dispatcherId tickerId : String)
    (h1 : env.updateStatusErr = none)
    (h2 : env.assignWorker = AssignWorkerResult.assigned workerId dispatcherId)
    (h3 : env.assignTicker = AssignTickerResult.ok tickerId)
    (h4 : bus (dispatchEmit tenantId wrId workerId dispatcherId) = none)
    (h5 : bus (timeoutEmit tenantId wrId gkrId tickerId) = none) :
    scheduleGetGroupAction env bus tenantId gkrId wrId =
      ([dispatchEmit tenantId wrId workerId dispatcherId,
        timeoutEmit tenantId wrId gkrId tickerId],
       [StoreWrite.updateGroupKeyRun tenantId gkrId pendingAssignmentPatch],
       Except.ok ()) := by
  simp [scheduleGetGroupAction, h1, h2, h3, h4, h5]

/-- C3 witness: the amended order at a concrete successful environment. -/
theorem scheduleGetGroupAction_send_order_witness :
    scheduleGetGroupAction envC3 busOk "tenant-3" "gkr-3" "wfr-3" =
      ([dispatchEmit "tenant-3" "wfr-3" "worker-1" "dispatcher-1",
        timeoutEmit "tenant-3" "wfr-3" "gkr-3" "ticker-1"],
       [StoreWrite.updateGroupKeyRun "tenant-3" "gkr-3" pendingAssignmentPatch],
       Except.ok ()) :=
  scheduleGetGroupAction_send_order envC3 busOk "tenant-3" "gkr-3" "wfr-3"
    "worker-1" "dispatcher-1" "ticker-1" rfl rfl rfl rfl rfl

/-- C4: when the worker-assignment store operation reports
NoWorkerAvailable, Schedule returns success with no dispatcher and no ticker
message; the only write issued is the PENDING_ASSIGNMENT status update that
precedes the assignment. -/
theorem scheduleGetGroupAction_noWorkerAvailable (env : ScheduleEnv) (bus : Bus)
    (tenantId gkrId wrId : String)
    (h1 : env.updateStatusErr = none)
    (h2 : env.assignWorker = AssignWorkerResult.noWorkerAvailable) :
    scheduleGetGroupAction env bus tenantId gkrId wrId =
      ([], [StoreWrite.updateGroupKeyRun tenantId gkrId pendingAssignmentPatch],
       Except.ok ()) := by
  simp [scheduleGetGroupAction, h1, h2]

/-- The schedule environment with no worker available, for the C4 witness. -/
def envC4 : ScheduleEnv :=
  ⟨none, AssignWorkerResult.noWorkerAvailable, AssignTickerResult.ok "ticker-9"⟩

/-- C4 witness: the NoWorkerAvailable behaviour at a concrete environment. -/
theorem scheduleGetGroupAction_noWorkerAvailable_witness :
    scheduleGetGroupAction envC4 busOk "tenant-4" "gkr-4" "wfr-4" =
      ([], [StoreWrite.updateGroupKeyRun "tenant-4" "gkr-4" pendingAssignmentPatch],
       Except.ok ()) :=
  scheduleGetGroupAction_noWorkerAvailable envC4 busOk "tenant-4" "gkr-4" "wfr-4" rfl rfl

/-- C5: the workflow-run-finished handler performs the round-robin release
(enqueuing the job runs of every run popped by PopWorkflowRunsRoundRobin) if
and only if the version has a GROUP_ROUND_ROBIN concurrency policy; with no
policy or with CANCEL_IN_PROGRESS it returns success with no emits and no
writes. -/
theorem handleWorkflowRunFinished_roundRobin_iff (bus : Bus) (tenantId : String)
    (wv : WorkflowVersion) (popped : List WorkflowRun) :
    handleWorkflowRunFinished bus tenantId wv popped =
      if hasRoundRobinPolicy wv then
        ((popped.map (fun wr => wr.jobRuns.map jobRunQueuedEmit)).flatten, [],
         Except.ok ())
      else ([], [], Except.ok ()) := by
  cases hwv : wv.concurrency with
  | none => simp [handleWorkflowRunFinished, hasRoundRobinPolicy, hwv]
  | some c =>
    cases hls : c.limitStrategy with
    | cancelInProgress => simp [handleWorkflowRunFinished, hasRoundRobinPolicy, hwv, hls]
    | groupRoundRobin =>
      simp only [handleWorkflowRunFinished, hasRoundRobinPolicy, hwv, hls, if_true,
                 queueByGroupRoundRobin]
      simp [queueWorkflowRunJobs_eq, List.map_map, Function.comp_def, firstSomeErr_map_none,
            firstSomeErr_replicate_none]

/-- The workflow version without a concurrency policy, for C6. -/
def wvNoPolicy : WorkflowVersion := ⟨"wfv-6", none⟩

/-- C6: evaluating the admission branch of handleGroupKeyRunFinished on a
workflow version with no ConcurrencyPolicy: the source discards the ok flag
of Concurrency() and reads LimitStrategy through the nil policy pointer, so
the goroutine panics instead of returning cleanly with no action. -/
theorem finishedAdmissionBranch_missing_policy_panics :
    finishedAdmissionBranch busOk "tenant-6" "group-6" wvNoPolicy [] [] [] =
      GoOutcome.panicked "runtime error: invalid memory address or nil pointer dereference"
    ∧ wvNoPolicy.concurrency = none := ⟨rfl, rfl⟩

/-- C7: cancelWorkflowRun publishes exactly one step-run-cancelled message,
with reason CANCELLED_BY_CONCURRENCY_LIMIT, per step run of the workflow run
whose status is RUNNING, and issues no store write, so every store snapshot
is left unchanged by its writes. -/
theorem cancelWorkflowRun_emits_and_frame (bus : Bus) (tenantId : String)
    (wr : WorkflowRun) (s : Store) :
    (cancelWorkflowRun bus tenantId wr).1 =
      (wr.stepRuns.filter (fun sr => decide (sr.status = StepRunStatus.running))).map
        (stepRunCancelledEmit tenantId)
    ∧ (cancelWorkflowRun bus tenantId wr).2.1 = []
    ∧ applyWrites s (cancelWorkflowRun bus tenantId wr).2.1 = s :=
  ⟨rfl, rfl, rfl⟩

/-- The cleanup environment in which unsubscribing from the queue fails. -/
def envC8 : CleanupEnv := ⟨some "amqp connection closed", none⟩

/-- C8 counterexample: when the queue cleanup returns an error, the shutdown
continuation executes only the context cancellation and the unsubscribe; the
wait for in-flight handlers and the scheduler stop are skipped. -/
theorem cleanup_skips_steps_counterexample :
    (cleanup envC8).1 = [ShutdownStep.cancelRootContext, ShutdownStep.unsubscribeQueue]
    ∧ ShutdownStep.waitForHandlers ∉ (cleanup envC8).1
    ∧ ShutdownStep.stopScheduler ∉ (cleanup envC8).1 := by
  refine ⟨rfl, by decide, by decide⟩

/-- C8 amended: the continuation always cancels the root context and runs the
queue cleanup; when the queue cleanup fails it returns that error at once,
skipping the handler wait and the scheduler stop, and otherwise all four
steps execute, with success reported exactly when neither fallible step
errs. -/
theorem cleanup_steps_spec (env : CleanupEnv) :
    (cleanup env).1 =
      (if env.cleanupQueueErr.isSome then
         [ShutdownStep.cancelRootContext, ShutdownStep.unsubscribeQueue]
       else
         [ShutdownStep.cancelRootContext, ShutdownStep.unsubscribeQueue,
          ShutdownStep.waitForHandlers, ShutdownStep.stopScheduler])
    ∧ ((cleanup env).2 = none ↔
        env.cleanupQueueErr = none ∧ env.schedulerShutdownErr = none) := by
  cases h1 : env.cleanupQueueErr <;> cases h2 : env.schedulerShutdownErr <;>
    simp [cleanup, h1, h2]

/-- C9: delivering get-group-key-run-finished or get-group-key-run-failed a
second time leaves the stored group-key run unchanged: the terminal-status
update is a no-op on a run already in a terminal state, and the first
delivery leaves the run terminal. -/
theorem deliverTerminal_idempotent (gkr : GroupKeyRun) (finishedAt failedAt : Nat)
    (groupKey errMsg : String) :
    deliverGroupKeyRunFinished finishedAt groupKey
        (deliverGroupKeyRunFinished finishedAt groupKey gkr) =
      deliverGroupKeyRunFinished finishedAt groupKey gkr
    ∧ deliverGroupKeyRunFailed failedAt errMsg
        (deliverGroupKeyRunFailed failedAt errMsg gkr) =
      deliverGroupKeyRunFailed failedAt errMsg gkr := by
  constructor
  · by_cases h : isTerminalStatus gkr.status
    · simp [deliverGroupKeyRunFinished, updateGetGroupKeyRunStore, h]
    · simp only [deliverGroupKeyRunFinished, updateGetGroupKeyRunStore, h,
                 if_false, Bool.false_eq_true]
      have hst : (applyPatch gkr (finishedPatch finishedAt groupKey)).status =
          StepRunStatus.succeeded := rfl
      simp [hst, isTerminalStatus, h]
  · by_cases h : isTerminalStatus gkr.status
    · simp [deliverGroupKeyRunFailed, updateGetGroupKeyRunStore, h]
    · simp only [deliverGroupKeyRunFailed, updateGetGroupKeyRunStore, h,
                 if_false, Bool.false_eq_true]
      have hst : (applyPatch gkr (failedPatch failedAt errMsg)).status =
          StepRunStatus.failed := rfl
      simp [hst, isTerminalStatus, h]

/-- C10: queueWorkflowRunJobs returns nil for every workflow run and every
behaviour of the bus, because the loop-local error is shadowed and never
assigned to the returned variable, while a send is still attempted for every
job run. -/
theorem queueWorkflowRunJobs_returns_nil (bus : Bus) (wr : WorkflowRun) :
    (queueWorkflowRunJobs bus wr).2 = none
    ∧ (queueWorkflowRunJobs bus wr).1 = wr.jobRuns.map jobRunQueuedEmit := by
  simp [queueWorkflowRunJobs_eq]

end Hatchet
